import Mathlib

/-!
Verification of txt-transform-studio (src/config.py, src/file_ops.py,
src/openai_client.py, src/gui.py) against its specification.

The Python code is shallowly embedded: JSON values stored in the settings
file become the inductive `JVal`; Python floats are modelled as rationals
(`ℚ`); fallible I/O (file reads, the network call, the artifact write, the
clipboard) is passed in as explicit `Except`/`Bool` outcomes; the
Tk `processing_count` variable of `gui.py` becomes a small step machine
whose atomic actions are the individual reads and writes the Python code
performs on it.
-/

namespace TxtTransform

/-- A JSON value, as `json.load` can produce it from the settings file. -/
inductive JVal where
  | null
  | bool (b : Bool)
  | num (q : ℚ)
  | str (s : String)
  | arr (xs : List JVal)
  | obj (fields : List (String × JVal))

/-- Model of `dict.get(key)` on a parsed JSON object (association list model). -/
def lookupField (fields : List (String × JVal)) (key : String) : Option JVal :=
  (fields.find? (fun kv => kv.1 == key)).map (fun kv => kv.2)

/-- Numeric value of a digit list (most significant first). -/
def digitsVal (cs : List Char) : ℚ :=
  cs.foldl (fun a c => a * 10 + ((c.toNat : ℚ) - 48)) 0

/-- Unsigned decimal mantissa of Python `float(str)`: `digits`,
`digits.digits`, `digits.` or `.digits`. -/
def parseUnsigned (cs : List Char) : Option ℚ :=
  let intPart := cs.takeWhile Char.isDigit
  let rest := cs.dropWhile Char.isDigit
  match rest with
  | [] => if intPart.isEmpty then none else some (digitsVal intPart)
  | '.' :: frac =>
      if frac.all Char.isDigit && !(intPart.isEmpty && frac.isEmpty) then
        some (digitsVal intPart + digitsVal frac / ((10 : ℚ) ^ frac.length))
      else none
  | _ => none

/-- Signed decimal mantissa. -/
def parseSigned (cs : List Char) : Option ℚ :=
  match cs with
  | '+' :: rest => parseUnsigned rest
  | '-' :: rest => (parseUnsigned rest).map (fun q => -q)
  | _ => parseUnsigned cs

/-- Signed integer exponent part after `e`/`E`. -/
def parseSignedInt (cs : List Char) : Option ℤ :=
  let signed : Bool × List Char :=
    match cs with
    | '+' :: rest => (false, rest)
    | '-' :: rest => (true, rest)
    | _ => (false, cs)
  if signed.2.isEmpty || !signed.2.all Char.isDigit then none
  else
    let v : ℤ := signed.2.foldl (fun a c => a * 10 + ((c.toNat : ℤ) - 48)) 0
    some (if signed.1 then -v else v)

/-- Python `float(s)` on a string, restricted to finite decimal literals
(optional surrounding whitespace, sign, fraction, exponent).  The
non-finite spellings `inf`/`nan` and digit-group underscores are outside
the rational model; they do not occur in any claim. -/
def pyParseFloat (s : String) : Option ℚ :=
  let cs := s.trim.toList
  let mant := cs.takeWhile (fun c => !(c == 'e' || c == 'E'))
  let rest := cs.dropWhile (fun c => !(c == 'e' || c == 'E'))
  match rest with
  | [] => parseSigned mant
  | _ :: expPart =>
      match parseSigned mant, parseSignedInt expPart with
      | some m, some e => some (m * (10 : ℚ) ^ e)
      | _, _ => none

/-- Python `float(x)` applied to a JSON value: numbers pass through,
booleans become 0/1, strings are parsed, and `None`/lists/dicts raise
`TypeError` (here: `none`). -/
def pyFloat : JVal → Option ℚ
  | .num q => some q
  | .bool b => some (if b then 1 else 0)
  | .str s => pyParseFloat s
  | _ => none

/-- Python `str(x)` on a JSON value.  Exact rendering of numbers and
containers is immaterial to every claim (they quantify over arbitrary
stored values); only totality and the string/bool/None cases matter. -/
def pyStr : JVal → String
  | .null => "None"
  | .bool true => "True"
  | .bool false => "False"
  | .str s => s
  | .num q => toString q.num ++ (if q.den = 1 then ".0" else "/" ++ toString q.den)
  | .arr _ => "[...]"
  | .obj _ => "{...}"

/-- Round half to even at integer precision, as Python `round` does. -/
def roundHalfEven (q : ℚ) : ℤ :=
  let f := ⌊q⌋
  let r := q - f
  if r < 1/2 then f
  else if 1/2 < r then f + 1
  else if f % 2 = 0 then f else f + 1

/-- Python `round(x, 4)` on the rational model of a float. -/
def pyRound4 (q : ℚ) : ℚ :=
  ((roundHalfEven (q * 10000) : ℚ)) / 10000

/-! ## config.py constants -/

def SUPPORTED_MODELS : List String := ["gpt-4.1", "gpt-4.1-mini", "gpt-4.1-nano"]

def DEFAULT_MODEL : String := "gpt-4.1"

def DEFAULT_TEMPERATURE : ℚ := 7/10

def DEFAULT_TOP_P : ℚ := 1

def DEFAULT_PROMPT_ID : String := "default"

def DEFAULT_OUTPUT_FORMAT : String := ".txt"

def PROCESSED_FOLDER : String := "Processed Database"

/-- Observable state of the persisted settings file when it is read. -/
inductive SettingsFileState where
  | missing
  | unreadable
  | invalidJson
  | parsed (v : JVal)

/-- Embedding of `config._load_settings`: the parsed JSON object's fields, or `{}` when
the file is missing, cannot be read (`OSError`), is not valid JSON
(`ValueError`), or parses to a non-object top-level value. -/
def _load_settings : SettingsFileState → List (String × JVal)
  | .parsed (.obj fields) => fields
  | _ => []

structure ModelSettings where
  model : String
  temperature : ℚ
  top_p : ℚ
  output_format : String
deriving DecidableEq, Repr

/-- Embedding of `config.get_model_settings`. -/
def get_model_settings (fs : SettingsFileState) : ModelSettings :=
  let settings := _load_settings fs
  let model : String :=
    match lookupField settings "model" with
    | some (.str m) => if m ∈ SUPPORTED_MODELS then m else DEFAULT_MODEL
    | some _ => DEFAULT_MODEL
    | none => DEFAULT_MODEL
  let temperature : ℚ :=
    match lookupField settings "temperature" with
    | some v => (pyFloat v).getD DEFAULT_TEMPERATURE
    | none => DEFAULT_TEMPERATURE
  let top_p : ℚ :=
    match lookupField settings "top_p" with
    | some v => (pyFloat v).getD DEFAULT_TOP_P
    | none => DEFAULT_TOP_P
  let output_format : String :=
    match lookupField settings "output_format" with
    | some (.str f) => if f = ".txt" ∨ f = ".md" then f else DEFAULT_OUTPUT_FORMAT
    | some _ => DEFAULT_OUTPUT_FORMAT
    | none => DEFAULT_OUTPUT_FORMAT
  { model := model
    temperature := pyRound4 temperature
    top_p := pyRound4 top_p
    output_format := output_format }

/-- Model of `settings[key] = v` on the association-list model of the dict. -/
def dictInsert (fields : List (String × JVal)) (key : String) (v : JVal) :
    List (String × JVal) :=
  if fields.any (fun kv => kv.1 == key) then
    fields.map (fun kv => if kv.1 == key then (kv.1, v) else kv)
  else fields ++ [(key, v)]

/-- The `model` validation/update step of `set_model_settings`. -/
def checkModel (s : List (String × JVal)) :
    Option String → Except String (List (String × JVal))
  | none => .ok s
  | some m =>
      if m ∈ SUPPORTED_MODELS then .ok (dictInsert s "model" (.str m))
      else .error ("Unsupported model: " ++ m)

/-- The `temperature` validation/update step of `set_model_settings`. -/
def checkTemperature (s : List (String × JVal)) :
    Option ℚ → Except String (List (String × JVal))
  | none => .ok s
  | some t =>
      if 0 ≤ t ∧ t ≤ 2 then .ok (dictInsert s "temperature" (.num t))
      else .error "temperature must be between 0 and 2"

/-- The `top_p` validation/update step of `set_model_settings`. -/
def checkTopP (s : List (String × JVal)) :
    Option ℚ → Except String (List (String × JVal))
  | none => .ok s
  | some p =>
      if 0 ≤ p ∧ p ≤ 1 then .ok (dictInsert s "top_p" (.num p))
      else .error "top_p must be between 0 and 1"

/-- The `output_format` validation/update step of `set_model_settings`. -/
def checkOutputFormat (s : List (String × JVal)) :
    Option String → Except String (List (String × JVal))
  | none => .ok s
  | some f =>
      if f = ".txt" ∨ f = ".md" then .ok (dictInsert s "output_format" (.str f))
      else .error "output_format must be .txt or .md"

/-- Embedding of `config.set_model_settings`: validates each provided argument in order,
raising `ValueError` (`.error`) on the first invalid one, and otherwise
returns the settings dict it saves to disk. -/
def set_model_settings (fs : SettingsFileState) (model : Option String)
    (temperature : Option ℚ) (top_p : Option ℚ) (output_format : Option String) :
    Except String (List (String × JVal)) :=
  (checkModel (_load_settings fs) model).bind (fun s1 =>
    (checkTemperature s1 temperature).bind (fun s2 =>
      (checkTopP s2 top_p).bind (fun s3 =>
        checkOutputFormat s3 output_format)))

/-- Whether an `Except` is the raised-exception case. -/
def isError {ε α : Type} : Except ε α → Bool
  | .error _ => true
  | .ok _ => false

/-! ## config.py prompt presets -/

structure Preset where
  id : String
  name : String
  content : String
deriving DecidableEq, Repr

/-- The id one stored preset entry receives: its stripped `id` field, or
a fresh uuid (drawn from the supply `uuids` at the running index `k`)
when that is empty.  Returns the id and the next uuid index. -/
def entryId (uuids : Nat → String) (k : Nat)
    (fields : List (String × JVal)) : String × Nat :=
  let rawId := (pyStr ((lookupField fields "id").getD (.str ""))).trim
  if rawId = "" then (uuids k, k + 1) else (rawId, k)

/-- The display name of one stored preset entry: its stripped `name`
field, defaulting to the entry's id when missing or blank. -/
def entryName (fields : List (String × JVal)) (pid : String) : String :=
  let nm0 := (pyStr ((lookupField fields "name").getD (.str pid))).trim
  if nm0 = "" then pid else nm0

/-- The content of one stored preset entry. -/
def entryContent (fields : List (String × JVal)) : String :=
  (pyStr ((lookupField fields "content").getD (.str ""))).trim

/-- The loop body of `get_prompt_presets`: walks the stored `prompts` list,
skipping non-dict entries and entries whose id was already seen. -/
def presetsLoop (uuids : Nat → String) :
    List JVal → List String → Nat → List Preset
  | [], _, _ => []
  | e :: rest, seen, k =>
    match e with
    | .obj fields =>
        if (entryId uuids k fields).1 ∈ seen then
          presetsLoop uuids rest seen (entryId uuids k fields).2
        else
          ⟨(entryId uuids k fields).1,
            entryName fields (entryId uuids k fields).1,
            entryContent fields⟩ ::
            presetsLoop uuids rest ((entryId uuids k fields).1 :: seen)
              (entryId uuids k fields).2
    | _ => presetsLoop uuids rest seen k

/-- The stored `prompts` value, coerced to a list (anything else counts
as no stored presets). -/
def storedPromptEntries (fs : SettingsFileState) : List JVal :=
  match lookupField (_load_settings fs) "prompts" with
  | some (.arr xs) => xs
  | some _ => []
  | none => []

/-- Embedding of `config.get_prompt_presets`.  `builtinPrompt` is what
`_read_system_prompt()` returns (the contents of SYSTEM_PROMPT.txt, or ""
when that file cannot be read); `uuids` supplies the `uuid.uuid4()` draws. -/
def get_prompt_presets (fs : SettingsFileState) (builtinPrompt : String)
    (uuids : Nat → String) : List Preset :=
  let unique := presetsLoop uuids (storedPromptEntries fs) [] 0
  if unique.any (fun p => p.id = DEFAULT_PROMPT_ID) then unique
  else ⟨DEFAULT_PROMPT_ID, "Default (SYSTEM_PROMPT.txt)", builtinPrompt⟩ :: unique

/-- Embedding of `config.get_default_prompt_id`. -/
def get_default_prompt_id (fs : SettingsFileState) (builtinPrompt : String)
    (uuids : Nat → String) : String :=
  let pid :=
    (pyStr ((lookupField (_load_settings fs) "default_prompt_id").getD
      (.str DEFAULT_PROMPT_ID))).trim
  if pid = "" then DEFAULT_PROMPT_ID
  else if !(get_prompt_presets fs builtinPrompt uuids).any (fun e => e.id = pid) then
    DEFAULT_PROMPT_ID
  else pid

/-- Embedding of `config.get_prompt`.  The final `prompts[0]` of the Python code raises
`IndexError` on an empty list; that possibility is modelled as `none`. -/
def promptByArg (prompts : List Preset) : Option String → Option Preset
  | some pid => if pid = "" then none else prompts.find? (fun e => e.id = pid)
  | none => none

def get_prompt (fs : SettingsFileState) (builtinPrompt : String)
    (uuids : Nat → String) (prompt_id : Option String) : Option Preset :=
  let prompts := get_prompt_presets fs builtinPrompt uuids
  match promptByArg prompts prompt_id with
  | some e => some e
  | none =>
      match prompts.find?
          (fun e => e.id = get_default_prompt_id fs builtinPrompt uuids) with
      | some e => some e
      | none => prompts.head?

/-! ## file_ops.py path functions -/

/-- Model of `os.path.basename`: the part of the path after the last separator.
Both `/` and the backslash are treated as separators (`ntpath`); drive
prefixes are not modelled (no claim involves them). -/
def basename (p : String) : String :=
  String.mk (p.toList.foldl
    (fun acc c => if c = '/' ∨ c = '\\' then [] else acc ++ [c]) [])

/-- Index of the last occurrence of `c`, if any. -/
def lastIdxOf (c : Char) (cs : List Char) : Option Nat :=
  (cs.foldl (fun st x => (st.1 + 1, if x = c then some st.1 else st.2))
    ((0 : Nat), (none : Option Nat))).2

/-- The name part of `os.path.splitext` on a separator-free base name: cut
at the last dot, unless every character before that dot is itself a dot
(so `.bashrc` keeps its whole name). -/
def pySplitextName (base : String) : String :=
  let cs := base.toList
  match lastIdxOf '.' cs with
  | none => base
  | some i =>
      if (cs.take i).any (fun c => c ≠ '.') then String.mk (cs.take i) else base

/-- Model of `os.path.join` with a fixed separator. -/
def joinPath (dir : String) (nm : String) : String := dir ++ "/" ++ nm

/-- Embedding of `file_ops.get_processed_path` (the Python default for `extension` is
`".txt"`). -/
def get_processed_path (original_path : String) (extension : String) : String :=
  joinPath PROCESSED_FOLDER (pySplitextName (basename original_path) ++ extension)

/-! ## file_ops.get_recent_texts -/

/-- One directory entry of the monitored folder as the scan sees it:
name within the folder, stat times, and whether `os.path.getmtime` /
`os.path.getctime` succeed (`statOk = false` models the `OSError` branch
that skips the file). -/
structure DirEntry where
  name : String
  mtime : ℚ
  ctime : ℚ
  statOk : Bool
deriving DecidableEq, Repr

/-- Model of the `glob.glob` pattern `*.txt` membership test on one name: ends with
`.txt` and is not a hidden (dot-initial) file, which `*` never matches. -/
def globTxtMatch (nm : String) : Bool :=
  List.isSuffixOf ".txt".toList nm.toList
    && !(List.isPrefixOf ".".toList nm.toList)

/-- The glob-and-stat phase of `get_recent_texts`: the `(path, mtime,
ctime)` triples that survive the pattern match and the stat calls, in
directory-listing order. -/
def scanEntries (folder : String) (listing : List DirEntry) :
    List (String × ℚ × ℚ) :=
  (listing.filter (fun e => globTxtMatch e.name && e.statOk)).map
    (fun e => (joinPath folder e.name, e.mtime, e.ctime))

/-- Embedding of `file_ops.get_recent_texts`: sort the scanned entries by modification
time, newest first (Python's `list.sort` is stable, as is `mergeSort`),
and keep the first `n`. -/
def get_recent_texts (folder : String) (listing : List DirEntry) (n : Nat) :
    List (String × ℚ × ℚ) :=
  (List.mergeSort (scanEntries folder listing)
    (fun a b => decide (b.2.1 ≤ a.2.1))).take n

/-! ## openai_client.py -/

/-- The chat completions payload `ask_chatgpt` builds: model id, system
prompt, user text, and the optional sampling parameters (omitted keys mean
"service default"). -/
structure ChatPayload where
  model : String
  system_prompt : String
  user_text : String
  temperature : Option ℚ
  top_p : Option ℚ
deriving DecidableEq, Repr

/-- What the remote service returns on success: the completion text and
the token usage of the response, plus the measured wall-clock time. -/
structure RemoteReply where
  content : String
  prompt_tokens : Nat
  completion_tokens : Nat
  total_tokens : Nat
  elapsed : ℚ
deriving DecidableEq, Repr

structure UsageStats where
  model : String
  prompt_tokens : Nat
  completion_tokens : Nat
  total_tokens : Nat
  response_time : ℚ
deriving DecidableEq, Repr

/-- The distinct ways `ask_chatgpt` can raise: the credential check
(`RuntimeError`, raised before anything else), an `OSError` reading
SYSTEM_PROMPT.txt when no system prompt was passed, or any exception from
the network call itself. -/
inductive AskError where
  | notConfigured
  | promptFileError (msg : String)
  | requestFailed (msg : String)
deriving DecidableEq, Repr

/-- Full observable outcome of one `ask_chatgpt` call: whether a network
request was made, the payload that was sent if so, and the returned value
or the exception. -/
structure AskOutcome where
  networkAttempted : Bool
  requestSent : Option ChatPayload
  result : Except AskError (String × UsageStats)

/-- Embedding of `openai_client.ask_chatgpt`.  `configured` is `client is not None`
(i.e. `is_configured()`); `promptFileContent` the outcome of reading
PROMPT_PATH; `remote` the external completions endpoint. -/
def ask_chatgpt (configured : Bool) (promptFileContent : Except String String)
    (remote : ChatPayload → Except String RemoteReply) (text : String)
    (model : String) (system_prompt : Option String)
    (temperature : Option ℚ) (top_p : Option ℚ) : AskOutcome :=
  if !configured then
    { networkAttempted := false, requestSent := none
      result := .error .notConfigured }
  else
    let spRes : Except AskError String :=
      match system_prompt with
      | some sp => .ok sp
      | none =>
          match promptFileContent with
          | .ok s => .ok s
          | .error e => .error (.promptFileError e)
    match spRes with
    | .error e =>
        { networkAttempted := false, requestSent := none, result := .error e }
    | .ok sp =>
        let payload : ChatPayload :=
          { model := model, system_prompt := sp, user_text := text
            temperature := temperature, top_p := top_p }
        match remote payload with
        | .error e =>
            { networkAttempted := true, requestSent := some payload
              result := .error (.requestFailed e) }
        | .ok reply =>
            { networkAttempted := true, requestSent := some payload
              result := .ok (reply.content.trim,
                { model := model
                  prompt_tokens := reply.prompt_tokens
                  completion_tokens := reply.completion_tokens
                  total_tokens := reply.total_tokens
                  response_time := reply.elapsed }) }

/-- The message `process_file` sees when catching an `ask_chatgpt`
exception. -/
def errToMsg : AskError → String
  | .notConfigured => "OPENAI_API_KEY environment variable not set."
  | .promptFileError m => m
  | .requestFailed m => m

/-! ## file_ops.process_file -/

/-- The keyword arguments of `process_file` (`None` = not provided). -/
structure JobArgs where
  model : Option String
  prompt_id : Option String
  prompt_text : Option String
  temperature : Option ℚ
  top_p : Option ℚ
  output_format : Option String
deriving DecidableEq, Repr

/-- Model of `arg or dflt` for a Python string argument: `None` and the empty
string are both falsy. -/
def orDefaultStr (arg : Option String) (dflt : String) : String :=
  match arg with
  | some s => if s = "" then dflt else s
  | none => dflt

/-- The effective configuration a job runs with. -/
structure EffProfile where
  model : String
  temperature : ℚ
  top_p : ℚ
  output_format : String
  prompt_text : String
deriving DecidableEq, Repr

/-- The argument-defaulting prologue of `process_file`: each parameter
falls back to the live settings (or to the live prompt store for
`prompt_text`) exactly when it was not provided (`or` for the strings,
`is not None` for the numbers and the prompt text). -/
def resolveProfile (args : JobArgs) (live : ModelSettings)
    (livePromptContent : String) : EffProfile :=
  { model := orDefaultStr args.model live.model
    temperature := args.temperature.getD live.temperature
    top_p := args.top_p.getD live.top_p
    output_format := orDefaultStr args.output_format live.output_format
    prompt_text := args.prompt_text.getD livePromptContent }

/-- The tag carried by a failed job, one per `return False` site of
`process_file` (the tag is the distinctive prefix of the log line the
branch emits). -/
inductive FailReason where
  | readError (msg : String)
  | serviceError (msg : String)
  | persistError (msg : String)
deriving DecidableEq, Repr

/-- Observable outcome of one `process_file` call: the returned Bool, the
failure tag when it returns False, the request sent to the service (if
any), the clipboard content if the copy attempt succeeded and whether it
was attempted at all, the artifact durably written (path and content, if
any), and the log lines relevant to the claims. -/
structure JobOutcome where
  success : Bool
  reason : Option FailReason
  serviceCall : Option ChatPayload
  clipboard : Option String
  clipboardAttempted : Bool
  artifact : Option (String × String)
  log : List String
deriving DecidableEq, Repr

/-- The `ask_chatgpt` call `process_file` makes for transcript `t`. -/
def serviceCallOf (args : JobArgs) (live : ModelSettings)
    (livePromptContent : String) (configured : Bool)
    (promptFileContent : Except String String)
    (remote : ChatPayload → Except String RemoteReply) (t : String) :
    AskOutcome :=
  let prof := resolveProfile args live livePromptContent
  ask_chatgpt configured promptFileContent remote t prof.model
    (some prof.prompt_text) (some prof.temperature) (some prof.top_p)

/-- Embedding of `file_ops.process_file`.  `readResult` is the outcome of reading the
source file, `remote` the completions endpoint, `clipboardOk` whether
`pyperclip.copy` succeeds, `writeResult` the outcome of writing the
artifact.  (`args.prompt_id` is consulted only when `args.prompt_text` is
`None`; the live prompt store's answer for it is `livePromptContent`.) -/
def process_file (path : String) (args : JobArgs) (live : ModelSettings)
    (livePromptContent : String) (configured : Bool)
    (promptFileContent : Except String String)
    (readResult : Except String String)
    (remote : ChatPayload → Except String RemoteReply)
    (clipboardOk : Bool) (writeResult : Except String Unit) : JobOutcome :=
  let prof := resolveProfile args live livePromptContent
  let nm := pySplitextName (basename path)
  match readResult with
  | .error e =>
      { success := false, reason := some (.readError e), serviceCall := none
        clipboard := none, clipboardAttempted := false, artifact := none
        log := ["Read error: " ++ e] }
  | .ok transcript =>
      let ask := serviceCallOf args live livePromptContent configured
        promptFileContent remote transcript
      match ask.result with
      | .error e =>
          { success := false, reason := some (.serviceError (errToMsg e))
            serviceCall := ask.requestSent, clipboard := none
            clipboardAttempted := false, artifact := none
            log := ["ChatGPT error: " ++ errToMsg e] }
      | .ok (outline, _stats) =>
          let clipLog : List String :=
            if clipboardOk then [] else ["Clipboard copy failed (pyperclip issue)."]
          let outfile := joinPath PROCESSED_FOLDER (nm ++ prof.output_format)
          match writeResult with
          | .error e =>
              { success := false, reason := some (.persistError e)
                serviceCall := ask.requestSent
                clipboard := if clipboardOk then some outline else none
                clipboardAttempted := true, artifact := none
                log := clipLog ++ ["File save error: " ++ e] }
          | .ok _ =>
              { success := true, reason := none
                serviceCall := ask.requestSent
                clipboard := if clipboardOk then some outline else none
                clipboardAttempted := true
                artifact := some (outfile, outline)
                log := clipLog ++ ["Saved outline to: " ++ outfile, "Done."] }

/-- The `JobArgs` that `gui.process_selected` passes for every selected
path: the snapshot of the live widgets at submission time, with
`prompt_id` omitted. -/
def submittedArgs (cur_model cur_prompt : String) (cur_temp cur_top_p : ℚ)
    (cur_fmt : String) : JobArgs :=
  { model := some cur_model, prompt_id := none, prompt_text := some cur_prompt
    temperature := some cur_temp, top_p := some cur_top_p
    output_format := some cur_fmt }

/-! ## gui.py processing_count

`processing_count` is a Tk integer variable.  `process_selected` performs
`set(get() + len(sel))` once on the UI thread at submission; each worker
thread, in its `finally` block, performs `new_count = get() - 1` followed
by `set(max(0, new_count))`.  The machine below makes each of those
variable accesses one atomic action, so arbitrary thread interleavings of
the completion read-modify-write sequences are expressible. -/

inductive CounterAction where
  | submit (n : Nat)
  | readCount (j : Nat)
  | writeCount (j : Nat)
deriving DecidableEq, Repr

/-- Field `counter` is the Tk variable; `regs j` is worker `j`'s local
`new_count`. -/
structure CounterState where
  counter : ℤ
  regs : Nat → ℤ

def counterStep (s : CounterState) : CounterAction → CounterState
  | .submit n => { s with counter := s.counter + n }
  | .readCount j =>
      { s with regs := fun k => if k = j then s.counter - 1 else s.regs k }
  | .writeCount j => { s with counter := max 0 (s.regs j) }

def counterRun (s : CounterState) (acts : List CounterAction) : CounterState :=
  acts.foldl counterStep s

def initialCounter : CounterState := { counter := 0, regs := fun _ => 0 }

/-- A batch of size `n` followed by `k` completions whose read/write pairs
do not interleave (the serialized executions). -/
def serialTrace (n k : Nat) : List CounterAction :=
  CounterAction.submit n ::
    (List.range k).flatMap
      (fun j => [CounterAction.readCount j, CounterAction.writeCount j])

/-! ## Theorems -/

/-- C7: the processed-artifact path is a pure function of the source
file's base name and the output extension under the fixed destination
root: two source paths with the same base name map to the same artifact
path, and the function is deterministic. -/
theorem c7_deterministic_artifact_path (p1 p2 ext : String)
    (h : basename p1 = basename p2) :
    get_processed_path p1 ext = get_processed_path p2 ext ∧
    get_processed_path p1 ext = get_processed_path p1 ext := by
  unfold get_processed_path
  rw [h]
  exact ⟨rfl, rfl⟩

/-- Witness for C7 at the two distinct source paths `a/notes.txt` and
`b/notes.txt`, which share the base name `notes.txt`. -/
theorem c7_witness :
    basename "a/notes.txt" = basename "b/notes.txt" ∧
    get_processed_path "a/notes.txt" ".md" = get_processed_path "b/notes.txt" ".md" :=
  ⟨by decide,
    (c7_deterministic_artifact_path "a/notes.txt" "b/notes.txt" ".md" (by decide)).1⟩

/-- C5: with no credential configured, `ask_chatgpt` fails with the
missing-credential error before any network request is attempted (no
request is sent), and that failure is a different error from any
request/transport failure (which, when the remote call fails, is tagged
`requestFailed`). -/
theorem c5_not_configured_before_network
    (promptFileContent : Except String String)
    (remote : ChatPayload → Except String RemoteReply)
    (text model : String) (sp : Option String) (t p : Option ℚ) :
    (ask_chatgpt false promptFileContent remote text model sp t p).result
        = Except.error AskError.notConfigured ∧
    (ask_chatgpt false promptFileContent remote text model sp t p).networkAttempted
        = false ∧
    (ask_chatgpt false promptFileContent remote text model sp t p).requestSent
        = none ∧
    (∀ msg sp0,
      (ask_chatgpt true promptFileContent (fun _ => Except.error msg) text model
          (some sp0) t p).result = Except.error (AskError.requestFailed msg)) ∧
    (∀ msg, AskError.notConfigured ≠ AskError.requestFailed msg) := by
  refine ⟨rfl, rfl, rfl, fun msg sp0 => rfl, fun msg h => ?_⟩
  cases h

/-- C3 (amended): modelling each Tk-variable access as one atomic action,
a batch submission adds its size to the counter, and along any execution
in which the completions' read-decrement-write sections do not interleave,
after `k ≤ n` completions the counter equals `n - k` — the number of jobs
not yet terminal — and it is `0` exactly when all `n` jobs have
terminated. -/
theorem c3_activeCount_serialized (n k : Nat) (hk : k ≤ n) :
    (counterRun initialCounter [CounterAction.submit n]).counter = n ∧
    (counterRun initialCounter (serialTrace n k)).counter = (n : ℤ) - k ∧
    ((counterRun initialCounter (serialTrace n k)).counter = 0 ↔ k = n) := by
  have key : ∀ k' : Nat, k' ≤ n →
      (counterRun initialCounter (serialTrace n k')).counter = (n : ℤ) - k' := by
    intro k' hk'
    induction k' with
    | zero =>
        simp [counterRun, serialTrace, initialCounter, counterStep]
    | succ m ih =>
        have hm : m ≤ n := Nat.le_of_succ_le hk'
        have hsplit : serialTrace n (m + 1)
            = serialTrace n m ++ [CounterAction.readCount m, CounterAction.writeCount m] := by
          simp [serialTrace, List.range_succ]
        have hprev := ih hm
        have happ : counterRun initialCounter (serialTrace n (m + 1))
            = counterStep (counterStep (counterRun initialCounter (serialTrace n m))
                (CounterAction.readCount m)) (CounterAction.writeCount m) := by
          rw [hsplit]
          simp [counterRun, List.foldl_append]
        rw [happ]
        have hlt : (m : ℤ) < n := by exact_mod_cast Nat.lt_of_succ_le hk'
        simp [counterStep, hprev]
        omega
  refine ⟨?_, key k hk, ?_⟩
  · simp [counterRun, initialCounter, counterStep]
  · rw [key k hk]
    constructor
    · intro h
      have : (k : ℤ) = n := by omega
      exact_mod_cast this
    · intro h
      subst h
      omega

/-- Witness for C3 (amended) at a batch of 3 with 3 serialized
completions. -/
theorem c3_witness :
    (counterRun initialCounter (serialTrace 3 3)).counter = (3 : ℤ) - 3 ∧
    ((counterRun initialCounter (serialTrace 3 3)).counter = 0 ↔ 3 = 3) :=
  ⟨(c3_activeCount_serialized 3 3 (by decide)).2.1,
   (c3_activeCount_serialized 3 3 (by decide)).2.2⟩

/-- With every argument provided (and the two strings that Python tests
for truthiness non-empty), the resolved profile is exactly the submitted
snapshot, whatever the live settings and live prompt say. -/
theorem resolveProfile_submitted (cur_model cur_prompt cur_fmt : String)
    (cur_temp cur_top_p : ℚ) (hm : cur_model ≠ "") (hf : cur_fmt ≠ "")
    (live : ModelSettings) (lp : String) :
    resolveProfile (submittedArgs cur_model cur_prompt cur_temp cur_top_p cur_fmt) live lp
      = ⟨cur_model, cur_temp, cur_top_p, cur_fmt, cur_prompt⟩ := by
  simp [resolveProfile, submittedArgs, orDefaultStr, hm, hf]

/-- Lemma: `process_file` factors through `resolveProfile`: equal resolved
profiles give equal outcomes. -/
theorem process_file_profile_congr (path : String) (args : JobArgs)
    (live live' : ModelSettings) (lp lp' : String) (configured : Bool)
    (pfc : Except String String) (readResult : Except String String)
    (remote : ChatPayload → Except String RemoteReply)
    (clipOk : Bool) (wr : Except String Unit)
    (h : resolveProfile args live lp = resolveProfile args live' lp') :
    process_file path args live lp configured pfc readResult remote clipOk wr
      = process_file path args live' lp' configured pfc readResult remote clipOk wr := by
  unfold process_file serviceCallOf
  rw [h]

/-- Lemma: whenever `process_file` records a request to the transform
service, the request carries the resolved profile's model, prompt text
and sampling parameters. -/
theorem process_file_serviceCall (path : String) (args : JobArgs)
    (live : ModelSettings) (lp : String) (configured : Bool)
    (pfc : Except String String) (readResult : Except String String)
    (remote : ChatPayload → Except String RemoteReply)
    (clipOk : Bool) (wr : Except String Unit) (pl : ChatPayload)
    (h : (process_file path args live lp configured pfc readResult remote
        clipOk wr).serviceCall = some pl) :
    pl.model = (resolveProfile args live lp).model ∧
    pl.system_prompt = (resolveProfile args live lp).prompt_text ∧
    pl.temperature = some (resolveProfile args live lp).temperature ∧
    pl.top_p = some (resolveProfile args live lp).top_p := by
  unfold process_file serviceCallOf ask_chatgpt at h
  cases readResult with
  | error e => simp at h
  | ok t =>
      cases configured with
      | false => simp at h
      | true =>
          simp only [Bool.not_true] at h
          cases hr : remote ⟨(resolveProfile args live lp).model,
              (resolveProfile args live lp).prompt_text, t,
              some (resolveProfile args live lp).temperature,
              some (resolveProfile args live lp).top_p⟩ with
          | error e =>
              simp only [hr] at h
              simp at h
              rw [← h]
              exact ⟨rfl, rfl, rfl, rfl⟩
          | ok reply =>
              simp only [hr] at h
              cases wr with
              | error e =>
                  simp at h
                  rw [← h]
                  exact ⟨rfl, rfl, rfl, rfl⟩
              | ok u =>
                  simp at h
                  rw [← h]
                  exact ⟨rfl, rfl, rfl, rfl⟩

/-- Lemma: whenever `process_file` records a durably written artifact, its
path is the processed path for the source's base name under the resolved
profile's output format. -/
theorem process_file_artifact (path : String) (args : JobArgs)
    (live : ModelSettings) (lp : String) (configured : Bool)
    (pfc : Except String String) (readResult : Except String String)
    (remote : ChatPayload → Except String RemoteReply)
    (clipOk : Bool) (wr : Except String Unit) (a : String × String)
    (h : (process_file path args live lp configured pfc readResult remote
        clipOk wr).artifact = some a) :
    a.1 = get_processed_path path (resolveProfile args live lp).output_format := by
  unfold process_file serviceCallOf ask_chatgpt at h
  cases readResult with
  | error e => simp at h
  | ok t =>
      cases configured with
      | false => simp at h
      | true =>
          simp only [Bool.not_true] at h
          cases hr : remote ⟨(resolveProfile args live lp).model,
              (resolveProfile args live lp).prompt_text, t,
              some (resolveProfile args live lp).temperature,
              some (resolveProfile args live lp).top_p⟩ with
          | error e => simp only [hr] at h; simp at h
          | ok reply =>
              simp only [hr] at h
              cases wr with
              | error e => simp at h
              | ok u =>
                  simp at h
                  rw [← h]
                  rfl

/-- C1: a job submitted by `process_selected` carries the full
configuration snapshot (model, temperature, top_p, output format, prompt
text) as explicit arguments, so its whole observable outcome — in
particular the request sent to the transform service and the artifact
path — is the same under any two live-settings/live-prompt states, and
the request and artifact path are those of the snapshot. -/
theorem c1_frozen_config_snapshot (path cur_model cur_prompt cur_fmt : String)
    (cur_temp cur_top_p : ℚ) (hm : cur_model ≠ "") (hf : cur_fmt ≠ "")
    (live live' : ModelSettings) (lp lp' : String) (configured : Bool)
    (pfc : Except String String) (readResult : Except String String)
    (remote : ChatPayload → Except String RemoteReply)
    (clipOk : Bool) (wr : Except String Unit) :
    process_file path (submittedArgs cur_model cur_prompt cur_temp cur_top_p cur_fmt)
        live lp configured pfc readResult remote clipOk wr
      = process_file path (submittedArgs cur_model cur_prompt cur_temp cur_top_p cur_fmt)
        live' lp' configured pfc readResult remote clipOk wr ∧
    (∀ pl, (process_file path (submittedArgs cur_model cur_prompt cur_temp cur_top_p cur_fmt)
        live lp configured pfc readResult remote clipOk wr).serviceCall = some pl →
      pl.model = cur_model ∧ pl.system_prompt = cur_prompt ∧
      pl.temperature = some cur_temp ∧ pl.top_p = some cur_top_p) ∧
    (∀ a, (process_file path (submittedArgs cur_model cur_prompt cur_temp cur_top_p cur_fmt)
        live lp configured pfc readResult remote clipOk wr).artifact = some a →
      a.1 = get_processed_path path cur_fmt) := by
  have hprof := resolveProfile_submitted cur_model cur_prompt cur_fmt cur_temp cur_top_p hm hf
  refine ⟨process_file_profile_congr _ _ _ _ _ _ _ _ _ _ _ _
      ((hprof live lp).trans (hprof live' lp').symm), ?_, ?_⟩
  · intro pl hpl
    have := process_file_serviceCall path _ live lp configured pfc readResult remote
      clipOk wr pl hpl
    rwa [hprof live lp] at this
  · intro a ha
    have := process_file_artifact path _ live lp configured pfc readResult remote
      clipOk wr a ha
    rwa [hprof live lp] at this

/-- Witness for C1: a concrete snapshot submitted under two different
live settings. -/
theorem c1_witness :
    process_file "a/f.txt" (submittedArgs "gpt-4.1-mini" "sys" (1/2) 1 ".md")
        ⟨"gpt-4.1", 7/10, 1, ".txt"⟩ "liveprompt" true (.ok "") (.ok "hello")
        (fun _ => .ok ⟨"HELLO", 1, 1, 2, 0⟩) true (.ok ())
      = process_file "a/f.txt" (submittedArgs "gpt-4.1-mini" "sys" (1/2) 1 ".md")
        ⟨"gpt-4.1-nano", 0, 0, ".md"⟩ "other" true (.ok "") (.ok "hello")
        (fun _ => .ok ⟨"HELLO", 1, 1, 2, 0⟩) true (.ok ()) :=
  (c1_frozen_config_snapshot "a/f.txt" "gpt-4.1-mini" "sys" ".md" (1/2) 1
    (by decide) (by decide) ⟨"gpt-4.1", 7/10, 1, ".txt"⟩ ⟨"gpt-4.1-nano", 0, 0, ".md"⟩
    "liveprompt" "other" true (.ok "") (.ok "hello")
    (fun _ => .ok ⟨"HELLO", 1, 1, 2, 0⟩) true (.ok ())).1

/-- C2: `process_file` returns True exactly when the source read, the
transform-service call, and the artifact write all succeed; a write
failure after a successful transform fails the job with a persist-error
tag, a read failure with a read-error tag, and a service failure with a
service-error tag; on success the artifact is written at the processed
path with the service's output text. -/
theorem c2_terminal_state_correctness (path : String) (args : JobArgs)
    (live : ModelSettings) (lp : String) (configured : Bool)
    (pfc : Except String String) (readResult : Except String String)
    (remote : ChatPayload → Except String RemoteReply)
    (clipOk : Bool) (wr : Except String Unit) :
    ((process_file path args live lp configured pfc readResult remote clipOk
        wr).success = true
      ↔ ∃ t r, readResult = Except.ok t ∧
          (serviceCallOf args live lp configured pfc remote t).result
            = Except.ok r ∧ wr = Except.ok ()) ∧
    (∀ e, readResult = Except.error e →
      (process_file path args live lp configured pfc readResult remote clipOk
        wr).success = false ∧
      (process_file path args live lp configured pfc readResult remote clipOk
        wr).reason = some (FailReason.readError e)) ∧
    (∀ t e, readResult = Except.ok t →
      (serviceCallOf args live lp configured pfc remote t).result
        = Except.error e →
      (process_file path args live lp configured pfc readResult remote clipOk
        wr).success = false ∧
      (process_file path args live lp configured pfc readResult remote clipOk
        wr).reason = some (FailReason.serviceError (errToMsg e))) ∧
    (∀ t r e, readResult = Except.ok t →
      (serviceCallOf args live lp configured pfc remote t).result
        = Except.ok r →
      wr = Except.error e →
      (process_file path args live lp configured pfc readResult remote clipOk
        wr).success = false ∧
      (process_file path args live lp configured pfc readResult remote clipOk
        wr).reason = some (FailReason.persistError e) ∧
      (process_file path args live lp configured pfc readResult remote clipOk
        wr).artifact = none) ∧
    (∀ t r, readResult = Except.ok t →
      (serviceCallOf args live lp configured pfc remote t).result
        = Except.ok r →
      wr = Except.ok () →
      (process_file path args live lp configured pfc readResult remote clipOk
        wr).success = true ∧
      (process_file path args live lp configured pfc readResult remote clipOk
        wr).artifact = some (get_processed_path path
          (resolveProfile args live lp).output_format, r.1)) := by
  simp only [process_file]
  cases readResult with
  | error e => simp
  | ok t =>
      cases hs : (serviceCallOf args live lp configured pfc remote t).result with
      | error er =>
          cases wr with
          | error ew => simp +contextual [hs]
          | ok u =>
              simp +contextual [hs]
              exact fun t1 a b hteq hsvc => rfl
      | ok r =>
          obtain ⟨outline, stats⟩ := r
          cases wr with
          | error ew => simp +contextual [hs]
          | ok u => simp +contextual [hs, get_processed_path]

/-- Witness for C2 at a concrete successful run: reading yields "hello",
the remote call succeeds, the write succeeds, and the job returns True
with the artifact at the processed path. -/
theorem c2_witness :
    (process_file "a/f.txt" (submittedArgs "gpt-4.1-mini" "sys" (1/2) 1 ".md")
        ⟨"gpt-4.1", 7/10, 1, ".txt"⟩ "lp" true (.ok "") (.ok "hello")
        (fun _ => .ok ⟨"HELLO", 1, 1, 2, 0⟩) true (.ok ())).success = true ∧
    (process_file "a/f.txt" (submittedArgs "gpt-4.1-mini" "sys" (1/2) 1 ".md")
        ⟨"gpt-4.1", 7/10, 1, ".txt"⟩ "lp" true (.ok "") (.ok "hello")
        (fun _ => .ok ⟨"HELLO", 1, 1, 2, 0⟩) true (.ok ())).artifact
      = some (get_processed_path "a/f.txt"
          (resolveProfile (submittedArgs "gpt-4.1-mini" "sys" (1/2) 1 ".md")
            ⟨"gpt-4.1", 7/10, 1, ".txt"⟩ "lp").output_format,
          ("HELLO".trim,
            ({ model := "gpt-4.1-mini", prompt_tokens := 1, completion_tokens := 1,
               total_tokens := 2, response_time := 0 } : UsageStats)).1) :=
  (c2_terminal_state_correctness "a/f.txt"
      (submittedArgs "gpt-4.1-mini" "sys" (1/2) 1 ".md")
      ⟨"gpt-4.1", 7/10, 1, ".txt"⟩ "lp" true (.ok "") (.ok "hello")
      (fun _ => .ok ⟨"HELLO", 1, 1, 2, 0⟩) true (.ok ())).2.2.2.2 "hello"
    ("HELLO".trim,
      { model := "gpt-4.1-mini", prompt_tokens := 1, completion_tokens := 1,
        total_tokens := 2, response_time := 0 })
    rfl rfl rfl

/-- C4 (amended): the clipboard-copy attempt happens exactly when the
transform-service call succeeds, and it happens before the artifact
write — so a job that fails at the persist step has still updated the
clipboard; jobs failing at the read or service step leave the clipboard
untouched; and a clipboard-copy failure does not change the terminal
state (the job still returns True when the write succeeds), only adding a
warning to the log. -/
theorem c4_clipboard_on_service_success (path : String) (args : JobArgs)
    (live : ModelSettings) (lp : String) (configured : Bool)
    (pfc : Except String String) (readResult : Except String String)
    (remote : ChatPayload → Except String RemoteReply)
    (clipOk : Bool) (wr : Except String Unit) :
    (∀ e, readResult = Except.error e →
      (process_file path args live lp configured pfc readResult remote clipOk
        wr).clipboardAttempted = false ∧
      (process_file path args live lp configured pfc readResult remote clipOk
        wr).clipboard = none) ∧
    (∀ t e, readResult = Except.ok t →
      (serviceCallOf args live lp configured pfc remote t).result
        = Except.error e →
      (process_file path args live lp configured pfc readResult remote clipOk
        wr).clipboardAttempted = false ∧
      (process_file path args live lp configured pfc readResult remote clipOk
        wr).clipboard = none) ∧
    (∀ t r, readResult = Except.ok t →
      (serviceCallOf args live lp configured pfc remote t).result
        = Except.ok r →
      (process_file path args live lp configured pfc readResult remote clipOk
        wr).clipboardAttempted = true ∧
      (process_file path args live lp configured pfc readResult remote clipOk
        wr).clipboard = (if clipOk then some r.1 else none)) ∧
    (∀ t r, readResult = Except.ok t →
      (serviceCallOf args live lp configured pfc remote t).result
        = Except.ok r →
      wr = Except.ok () → clipOk = false →
      (process_file path args live lp configured pfc readResult remote clipOk
        wr).success = true ∧
      "Clipboard copy failed (pyperclip issue)." ∈
        (process_file path args live lp configured pfc readResult remote clipOk
          wr).log) := by
  simp only [process_file]
  cases readResult with
  | error e => simp
  | ok t =>
      cases hs : (serviceCallOf args live lp configured pfc remote t).result with
      | error er =>
          cases wr with
          | error ew => simp +contextual [hs]
          | ok u => simp +contextual [hs]
      | ok r =>
          obtain ⟨outline, stats⟩ := r
          cases wr with
          | error ew => cases clipOk <;> simp +contextual [hs]
          | ok u => cases clipOk <;> simp +contextual [hs]

/-- Witness for C4 (amended): a concrete run whose clipboard copy fails
but whose job still succeeds with a warning logged. -/
theorem c4_witness :
    (process_file "a/f.txt" (submittedArgs "gpt-4.1-mini" "sys" (1/2) 1 ".md")
        ⟨"gpt-4.1", 7/10, 1, ".txt"⟩ "lp" true (.ok "") (.ok "hello")
        (fun _ => .ok ⟨"HELLO", 1, 1, 2, 0⟩) false (.ok ())).success = true ∧
    "Clipboard copy failed (pyperclip issue)." ∈
      (process_file "a/f.txt" (submittedArgs "gpt-4.1-mini" "sys" (1/2) 1 ".md")
        ⟨"gpt-4.1", 7/10, 1, ".txt"⟩ "lp" true (.ok "") (.ok "hello")
        (fun _ => .ok ⟨"HELLO", 1, 1, 2, 0⟩) false (.ok ())).log :=
  (c4_clipboard_on_service_success "a/f.txt"
      (submittedArgs "gpt-4.1-mini" "sys" (1/2) 1 ".md")
      ⟨"gpt-4.1", 7/10, 1, ".txt"⟩ "lp" true (.ok "") (.ok "hello")
      (fun _ => .ok ⟨"HELLO", 1, 1, 2, 0⟩) false (.ok ())).2.2.2 "hello"
    ("HELLO".trim,
      { model := "gpt-4.1-mini", prompt_tokens := 1, completion_tokens := 1,
        total_tokens := 2, response_time := 0 })
    rfl rfl rfl rfl

/-- Counterexample to C4 as stated: a run in which the service call
succeeds but the artifact write fails ends in the Failed terminal state
(returns False), yet the clipboard has been updated (the copy happens
before the write), contradicting "a job that ends Failed leaves the
clipboard unchanged". -/
theorem c4_counterexample :
    (process_file "a/f.txt" (submittedArgs "gpt-4.1-mini" "sys" (1/2) 1 ".md")
        ⟨"gpt-4.1", 7/10, 1, ".txt"⟩ "lp" true (.ok "") (.ok "hello")
        (fun _ => .ok ⟨"HELLO", 1, 1, 2, 0⟩) true (.error "disk full")).success
      = false ∧
    (process_file "a/f.txt" (submittedArgs "gpt-4.1-mini" "sys" (1/2) 1 ".md")
        ⟨"gpt-4.1", 7/10, 1, ".txt"⟩ "lp" true (.ok "") (.ok "hello")
        (fun _ => .ok ⟨"HELLO", 1, 1, 2, 0⟩) true
        (.error "disk full")).clipboardAttempted = true ∧
    (process_file "a/f.txt" (submittedArgs "gpt-4.1-mini" "sys" (1/2) 1 ".md")
        ⟨"gpt-4.1", 7/10, 1, ".txt"⟩ "lp" true (.ok "") (.ok "hello")
        (fun _ => .ok ⟨"HELLO", 1, 1, 2, 0⟩) true
        (.error "disk full")).clipboard = some "HELLO".trim := by
  refine ⟨rfl, rfl, rfl⟩

/-- Counterexample to C3 as stated: the completion's read and write of
`processing_count` are two separate accesses, so two workers finishing a
batch of 2 can interleave (both read 2, then both write
`max(0, 2 - 1) = 1`).  After this execution every job of the batch is
terminal (both read/write pairs have run), yet the counter is 1, not 0 —
the counter does not equal the number of non-terminal jobs at every
point, and it never reaches 0. -/
theorem c3_counterexample :
    (counterRun initialCounter
      [CounterAction.submit 2, CounterAction.readCount 0, CounterAction.readCount 1,
       CounterAction.writeCount 0, CounterAction.writeCount 1]).counter = 1 ∧
    ¬ (counterRun initialCounter
      [CounterAction.submit 2, CounterAction.readCount 0, CounterAction.readCount 1,
       CounterAction.writeCount 0, CounterAction.writeCount 1]).counter = 0 := by
  constructor
  · decide
  · decide

/-- C6 (amended): `set_model_settings` rejects (raises `ValueError` for)
any provided argument outside the valid sets — model outside the catalog,
temperature outside [0,2], top_p outside [0,1], output format outside
{.txt, .md} — and `get_model_settings` always returns a model from the
catalog and an output format in {.txt, .md}; the stored temperature and
top_p, however, are only coerced to float (falling back to the default
when not convertible), their range is not re-validated on read. -/
theorem c6_settings_validation :
    (∀ fs, (get_model_settings fs).model ∈ SUPPORTED_MODELS ∧
      ((get_model_settings fs).output_format = ".txt" ∨
        (get_model_settings fs).output_format = ".md")) ∧
    (∀ fs m t p f,
      ((∃ m0, m = some m0 ∧ m0 ∉ SUPPORTED_MODELS) ∨
       (∃ t0, t = some t0 ∧ ¬(0 ≤ t0 ∧ t0 ≤ 2)) ∨
       (∃ p0, p = some p0 ∧ ¬(0 ≤ p0 ∧ p0 ≤ 1)) ∨
       (∃ f0, f = some f0 ∧ ¬(f0 = ".txt" ∨ f0 = ".md"))) →
      isError (set_model_settings fs m t p f) = true) := by
  constructor
  · intro fs
    constructor
    · simp only [get_model_settings]
      cases hm : lookupField (_load_settings fs) "model" with
      | none => simp [DEFAULT_MODEL, SUPPORTED_MODELS]
      | some v =>
          cases v <;> simp [DEFAULT_MODEL, SUPPORTED_MODELS]
          split <;> simp_all [SUPPORTED_MODELS]
    · simp only [get_model_settings]
      cases hf : lookupField (_load_settings fs) "output_format" with
      | none => simp [DEFAULT_OUTPUT_FORMAT]
      | some v =>
          cases v <;> simp [DEFAULT_OUTPUT_FORMAT]
          split <;> simp_all [DEFAULT_OUTPUT_FORMAT]
  · intro fs m t p f h
    rcases h with ⟨m0, rfl, hm0⟩ | ⟨t0, rfl, ht0⟩ | ⟨p0, rfl, hp0⟩ | ⟨f0, rfl, hf0⟩
    · simp [set_model_settings, checkModel, hm0, isError, Except.bind]
    · cases hcm : checkModel (_load_settings fs) m with
      | error e => simp [set_model_settings, hcm, isError, Except.bind]
      | ok s1 =>
          simp [set_model_settings, hcm, checkTemperature, ht0, isError,
            Except.bind]
    · cases hcm : checkModel (_load_settings fs) m with
      | error e => simp [set_model_settings, hcm, isError, Except.bind]
      | ok s1 =>
          cases hct : checkTemperature s1 t with
          | error e => simp [set_model_settings, hcm, hct, isError, Except.bind]
          | ok s2 =>
              simp [set_model_settings, hcm, hct, checkTopP, hp0, isError,
                Except.bind]
    · cases hcm : checkModel (_load_settings fs) m with
      | error e => simp [set_model_settings, hcm, isError, Except.bind]
      | ok s1 =>
          cases hct : checkTemperature s1 t with
          | error e => simp [set_model_settings, hcm, hct, isError, Except.bind]
          | ok s2 =>
              cases hcp : checkTopP s2 p with
              | error e =>
                  simp [set_model_settings, hcm, hct, hcp, isError, Except.bind]
              | ok s3 =>
                  simp [set_model_settings, hcm, hct, hcp, checkOutputFormat,
                    hf0, isError, Except.bind]

/-- Witness for C6 (amended): an unsupported model id is rejected. -/
theorem c6_witness :
    isError (set_model_settings .missing (some "gpt-5") none none none) = true :=
  c6_settings_validation.2 .missing (some "gpt-5") none none none
    (Or.inl ⟨"gpt-5", rfl, by decide⟩)

/-- Counterexample to C6 as stated: a settings file storing temperature 5
makes `get_model_settings` return temperature 5, which is outside [0, 2] —
reads do not re-validate the numeric ranges. -/
theorem c6_counterexample :
    (get_model_settings (.parsed (.obj [("temperature", .num 5)]))).temperature
      = 5 ∧
    ¬ ((get_model_settings
        (.parsed (.obj [("temperature", .num 5)]))).temperature ≤ 2) := by
  have h5 : (get_model_settings
      (.parsed (.obj [("temperature", .num 5)]))).temperature = 5 := by
    simp only [get_model_settings, _load_settings, lookupField, List.find?,
      pyFloat]
    norm_num [pyRound4, roundHalfEven]
  exact ⟨h5, by rw [h5]; norm_num⟩

/-- C10: settings reads never raise on corrupt storage — `_load_settings`
returns the empty dict whenever the settings file is missing, unreadable,
invalid JSON, or a non-object JSON document, and `get_model_settings`
then returns the built-in defaults (model "gpt-4.1", temperature 0.7,
top_p 1.0, output format ".txt"); a stored temperature or top_p that is
not convertible to float likewise falls back to its default. -/
theorem c10_reads_never_raise :
    (∀ fs, (∀ fields, fs ≠ .parsed (.obj fields)) →
      _load_settings fs = [] ∧
      get_model_settings fs
        = ⟨"gpt-4.1", 7/10, 1, ".txt"⟩) ∧
    (∀ fields v, lookupField fields "temperature" = some v → pyFloat v = none →
      (get_model_settings (.parsed (.obj fields))).temperature = 7/10) ∧
    (∀ fields v, lookupField fields "top_p" = some v → pyFloat v = none →
      (get_model_settings (.parsed (.obj fields))).top_p = 1) := by
  have hdef : pyRound4 DEFAULT_TEMPERATURE = 7/10 ∧ pyRound4 DEFAULT_TOP_P = 1 := by
    constructor <;> norm_num [pyRound4, roundHalfEven, DEFAULT_TEMPERATURE,
      DEFAULT_TOP_P]
  have hload : ∀ fs : SettingsFileState, (∀ fields, fs ≠ .parsed (.obj fields)) →
      _load_settings fs = [] := by
    intro fs h
    cases fs with
    | missing => rfl
    | unreadable => rfl
    | invalidJson => rfl
    | parsed v =>
        cases v with
        | obj fields => exact absurd rfl (h fields)
        | null => rfl
        | bool b => rfl
        | num q => rfl
        | str s => rfl
        | arr xs => rfl
  refine ⟨?_, ?_, ?_⟩
  · intro fs h
    refine ⟨hload fs h, ?_⟩
    simp only [get_model_settings, hload fs h, lookupField, List.find?,
      Option.map, Option.getD]
    simp only [DEFAULT_MODEL, DEFAULT_OUTPUT_FORMAT]
    rw [ModelSettings.mk.injEq]
    exact ⟨rfl, hdef.1, hdef.2, rfl⟩
  · intro fields v hv hnone
    simp only [get_model_settings, _load_settings, hv, hnone, Option.getD]
    exact hdef.1
  · intro fields v hv hnone
    simp only [get_model_settings, _load_settings, hv, hnone, Option.getD]
    exact hdef.2

/-- Witness for C10: an invalid-JSON settings file yields the defaults,
and a stored null temperature falls back to 0.7. -/
theorem c10_witness :
    get_model_settings .invalidJson = ⟨"gpt-4.1", 7/10, 1, ".txt"⟩ ∧
    (get_model_settings
        (.parsed (.obj [("temperature", .null)]))).temperature = 7/10 :=
  ⟨(c10_reads_never_raise.1 .invalidJson (fun fields h => by cases h)).2,
   c10_reads_never_raise.2.1 [("temperature", .null)] .null rfl rfl⟩

/-- Lemma: the preset loop yields id-unique presets, none of whose ids
were already seen. -/
theorem presetsLoop_spec (uuids : Nat → String) (entries : List JVal) :
    ∀ (seen : List String) (k : Nat),
      ((presetsLoop uuids entries seen k).map Preset.id).Nodup ∧
      ∀ p ∈ presetsLoop uuids entries seen k, p.id ∉ seen := by
  induction entries with
  | nil => intro seen k; simp [presetsLoop]
  | cons e rest ih =>
      intro seen k
      cases e with
      | obj fields =>
          simp only [presetsLoop]
          by_cases hmem : (entryId uuids k fields).1 ∈ seen
          · rw [if_pos hmem]
            exact ih seen (entryId uuids k fields).2
          · rw [if_neg hmem]
            constructor
            · rw [List.map_cons, List.nodup_cons]
              refine ⟨fun hmm => ?_,
                (ih ((entryId uuids k fields).1 :: seen) (entryId uuids k fields).2).1⟩
              obtain ⟨p, hp, hpe⟩ := List.mem_map.mp hmm
              exact (ih ((entryId uuids k fields).1 :: seen)
                  (entryId uuids k fields).2).2 p hp
                (hpe ▸ List.mem_cons_self (entryId uuids k fields).1 seen)
            · intro p hp
              rcases List.mem_cons.mp hp with rfl | hp2
              · exact hmem
              · exact fun hin =>
                  (ih ((entryId uuids k fields).1 :: seen)
                    (entryId uuids k fields).2).2 p hp2
                    (List.mem_cons_of_mem _ hin)
      | null => simp only [presetsLoop]; exact ih seen k
      | bool b => simp only [presetsLoop]; exact ih seen k
      | num q => simp only [presetsLoop]; exact ih seen k
      | str s => simp only [presetsLoop]; exact ih seen k
      | arr xs => simp only [presetsLoop]; exact ih seen k

/-- Lemma: the preset list is never empty, and its ids are unique (the
built-in default preset is prepended exactly when no stored preset
carries the id "default"). -/
theorem get_prompt_presets_nonempty_nodup (fs : SettingsFileState)
    (builtin : String) (uuids : Nat → String) :
    get_prompt_presets fs builtin uuids ≠ [] ∧
    ((get_prompt_presets fs builtin uuids).map Preset.id).Nodup := by
  have hspec := presetsLoop_spec uuids (storedPromptEntries fs) [] 0
  unfold get_prompt_presets
  by_cases hany : (presetsLoop uuids (storedPromptEntries fs) [] 0).any
      (fun p => p.id = DEFAULT_PROMPT_ID)
  · rw [if_pos hany]
    refine ⟨?_, hspec.1⟩
    intro hnil
    rw [hnil] at hany
    simp at hany
  · rw [if_neg hany]
    refine ⟨by simp, ?_⟩
    rw [List.map_cons, List.nodup_cons]
    refine ⟨fun hmm => ?_, hspec.1⟩
    obtain ⟨p, hp, hpe⟩ := List.mem_map.mp hmm
    rw [List.any_eq_true] at hany
    exact hany ⟨p, hp, by simp [hpe]⟩

/-- C9: `get_prompt` is total — for every settings-file content, built-in
prompt text, uuid supply and `prompt_id` argument, the preset list is
non-empty with unique ids, so `get_prompt` always returns a preset (the
final `prompts[0]` never indexes an empty list). -/
theorem c9_get_prompt_total (fs : SettingsFileState) (builtin : String)
    (uuids : Nat → String) (pid : Option String) :
    get_prompt_presets fs builtin uuids ≠ [] ∧
    ((get_prompt_presets fs builtin uuids).map Preset.id).Nodup ∧
    (get_prompt fs builtin uuids pid).isSome = true := by
  obtain ⟨hne, hnd⟩ := get_prompt_presets_nonempty_nodup fs builtin uuids
  refine ⟨hne, hnd, ?_⟩
  unfold get_prompt
  dsimp only
  cases h1 : promptByArg (get_prompt_presets fs builtin uuids) pid with
  | some e => rfl
  | none =>
      cases h2 : (get_prompt_presets fs builtin uuids).find?
          (fun e => e.id = get_default_prompt_id fs builtin uuids) with
      | some e => rfl
      | none =>
          cases hP : get_prompt_presets fs builtin uuids with
          | nil => exact absurd hP hne
          | cons a l => rfl

/-- C8: for every folder state and every bound `n`, `get_recent_texts`
returns at most `n` entries, sorted by modification time newest first,
each of which is a `.txt` file of the monitored folder paired with its
modification and creation times (an entry of the glob-and-stat scan). -/
theorem c8_scan_order_and_bound (folder : String) (listing : List DirEntry)
    (n : Nat) :
    (get_recent_texts folder listing n).length ≤ n ∧
    (get_recent_texts folder listing n).Pairwise
      (fun a b => b.2.1 ≤ a.2.1) ∧
    ∀ e ∈ get_recent_texts folder listing n, e ∈ scanEntries folder listing := by
  refine ⟨?_, ?_, ?_⟩
  · rw [get_recent_texts, List.length_take]
    exact min_le_left _ _
  · have htrans : ∀ a b c : String × ℚ × ℚ,
        (fun a b => decide (b.2.1 ≤ a.2.1)) a b →
        (fun a b => decide (b.2.1 ≤ a.2.1)) b c →
        (fun a b => decide (b.2.1 ≤ a.2.1)) a c := by
      intro a b c hab hbc
      simp only [decide_eq_true_eq] at hab hbc ⊢
      exact le_trans hbc hab
    have htotal : ∀ a b : String × ℚ × ℚ,
        ((fun a b => decide (b.2.1 ≤ a.2.1)) a b
          || (fun a b => decide (b.2.1 ≤ a.2.1)) b a) = true := by
      intro a b
      simpa using le_total b.2.1 a.2.1
    have hsorted := List.sorted_mergeSort htrans htotal
      (scanEntries folder listing)
    have h2 : (List.mergeSort (scanEntries folder listing)
        (fun a b => decide (b.2.1 ≤ a.2.1))).Pairwise
        (fun a b => b.2.1 ≤ a.2.1) :=
      hsorted.imp (fun h => by simpa using h)
    exact List.Pairwise.sublist (List.take_sublist _ _) h2
  · intro e he
    exact List.mem_mergeSort.mp (List.take_subset _ _ he)

/-- Witness for C8 on a concrete folder with two stat-able `.txt` files:
the bound holds and the newest file is reported with its times. -/
theorem c8_witness :
    (get_recent_texts "d"
      [⟨"b.txt", 2, 0, true⟩, ⟨"a.txt", 5, 1, true⟩] 2).length ≤ 2 ∧
    ("d/a.txt", (5 : ℚ), (1 : ℚ)) ∈
      scanEntries "d" [⟨"b.txt", 2, 0, true⟩, ⟨"a.txt", 5, 1, true⟩] := by
  refine ⟨(c8_scan_order_and_bound "d"
      [⟨"b.txt", 2, 0, true⟩, ⟨"a.txt", 5, 1, true⟩] 2).1,
    (c8_scan_order_and_bound "d"
      [⟨"b.txt", 2, 0, true⟩, ⟨"a.txt", 5, 1, true⟩] 2).2.2
      ("d/a.txt", (5 : ℚ), (1 : ℚ)) ?_⟩
  rw [get_recent_texts,
    List.take_of_length_le (by rw [List.length_mergeSort]; decide),
    List.mem_mergeSort]
  decide

end TxtTransform
